import Mathlib

/-!
Verification development for the `loci` proximity-search module
(`apps/loci/models.py`).

The module has two parts:

* `PlaceQuerySet.near` / `near_distances`: a bounding-box prune over the
  record store followed by an exact distance filter;
* `Place.save`: write-time coordinate resolution through an external
  geocoding service.

Shallow embedding conventions:

* Python floats are modelled as exact rationals (`ℚ`); every decimal
  constant of the source (1.609344, 1.852) is an exact decimal here.
* Python `None` becomes `Option.none`; Python truthiness of an optional
  float (`None` and `0.0` are falsy) is the `truthy` predicate below;
  Python truthiness of a string is the test against the empty string.
* The record store (a Django queryset) is a `List Place`; the range
  filter of the store keeps records whose fields are non-NULL and inside
  the inclusive bounds, which is what the Django `__range` lookup does.
* The two external collaborators are parameters: the distance library
  (geopy) enters `near` as a boolean comparison `within a b d`, standing
  for the float test `geopy.distance.distance(a, b).miles <= d`, and
  enters `near_distances` as a miles-valued function `distMiles`; the
  geocoding service enters `save` as a fallible function `geocode`.  For
  the claims that speak about the great-circle distance itself, the
  collaborator is instantiated with `gcMiles`, the great-circle distance
  on a sphere of radius 6371.009 km (the mean earth radius used by the
  library), as the glossary of the specification defines it.
* Raised exceptions become `Except.error`: `ValueError` with its message,
  the `NameError` on the `geoloc` variable left unbound in `Place.save`
  (and on the stale `exact_distance` variable in `near_distances`), and a
  propagated geocoder error.  A successful `save` returns the record as
  persisted.
-/

namespace Loci

/-- Python truthiness of an optional float: None and 0.0 are falsy. -/
def truthy : Option ℚ → Bool
  | none => false
  | some x => x != 0

/-- The Place model: name plus optional address parts (blank default is the
single-space sentinel) and optional indexed coordinates. -/
structure Place where
  name : String
  address : String := " "
  city : String := " "
  state : String := " "
  zip_code : String := " "
  latitude : Option ℚ := none
  longitude : Option ℚ := none
deriving DecidableEq

/-- The polymorphic `location` argument of `near`: either a (lat, lon)
tuple or a Place-like object, optionally carrying the `nearby_distance`
attribute; `none` for `nearby_distance` models an absent attribute. -/
structure Center where
  latitude : Option ℚ
  longitude : Option ℚ
  nearby_distance : Option ℚ := none
deriving DecidableEq

/-- Message of the ValueError raised by `near` when no distance is
available. -/
def distanceErrMsg : String := "Distance must be attached or passed explicitly."

/-- Errors the query path can raise. -/
inductive QueryError where
  | valueError (msg : String)
  | nameError
deriving DecidableEq

/-- The conversion `degrees(arcminutes=nautical(miles=d))` from
`geopy.units`: miles to kilometers (times 1.609344), kilometers to
nautical miles (divided by 1.852), nautical miles to arcminutes (times 1),
arcminutes to degrees (divided by 60). -/
def degLat (d : ℚ) : ℚ := d * (1609344 / 1000000) / (1852 / 1000) / 60

/-- The bounding-box filter the store executes:
`latitude__range=lat_range, longitude__range=long_range` with
`lat_range = (latitude - deg_lat, latitude + deg_lat)` and
`long_range = (longitude - deg_lat * 2, longitude + deg_lat * 2)`.
Inclusive bounds; NULL coordinates never match a range lookup. -/
def inBoxB (clat clon d : ℚ) (p : Place) : Bool :=
  match p.latitude, p.longitude with
  | some la, some lo =>
    decide (clat - degLat d ≤ la) && decide (la ≤ clat + degLat d) &&
    decide (clon - degLat d * 2 ≤ lo) && decide (lo ≤ clon + degLat d * 2)
  | _, _ => false

/-- The body of `near` once a usable center and distance are in hand: the
store-side box prune, then the Python loop keeping records with truthy
coordinates whose exact distance is within `d`. -/
def nearBody (within : ℚ × ℚ → ℚ × ℚ → ℚ → Bool) (store : List Place)
    (clat clon d : ℚ) : List Place :=
  (store.filter (inBoxB clat clon d)).filter fun p =>
    truthy p.latitude && truthy p.longitude &&
      within (clat, clon) (p.latitude.getD 0, p.longitude.getD 0) d

/-- `PlaceQuerySet.near(location, distance=None)`.  Returns `[]` when the
center coordinates are falsy, then resolves the distance (the passed one,
else the attached `nearby_distance`, else `ValueError`), then prunes by
bounding box and filters by the exact distance comparison `within`. -/
def near (within : ℚ × ℚ → ℚ × ℚ → ℚ → Bool) (store : List Place)
    (c : Center) (distance : Option ℚ) : Except QueryError (List Place) :=
  if !(truthy c.latitude && truthy c.longitude) then .ok []
  else
    let clat := c.latitude.getD 0
    let clon := c.longitude.getD 0
    match distance with
    | some d => .ok (nearBody within store clat clon d)
    | none =>
      match c.nearby_distance with
      | some d => .ok (nearBody within store clat clon d)
      | none => .error (.valueError distanceErrMsg)

/-- Python `round` to an integer: round half to even. -/
def pyRoundHalfEven (q : ℚ) : ℤ :=
  let f := ⌊q⌋
  let r := q - (f : ℚ)
  if r < 1 / 2 then f
  else if 1 / 2 < r then f + 1
  else if f % 2 = 0 then f else f + 1

/-- Python `round(x, 2)`. -/
def pyRound2 (q : ℚ) : ℚ := (pyRoundHalfEven (q * 100) : ℚ) / 100

/-- Decimal dot used by the float formatting below. -/
def decimalDot : String := "."

/-- Padding zero used by the float formatting below. -/
def padZero : String := "0"

/-- Minus sign used by the float formatting below. -/
def minusSign : String := "-"

/-- Python string formatting of a float with two decimal places. -/
def format2f (q : ℚ) : String :=
  let c : ℤ := pyRoundHalfEven (q * 100)
  let sign := if c < 0 then minusSign else ""
  let n := c.natAbs
  sign ++ toString (n / 100) ++ decimalDot ++
    (if n % 100 < 10 then padZero else "") ++ toString (n % 100)

/-- The loop of `near_distances`: the local variable `exact_distance` is
assigned only when the current record has truthy coordinates, so a record
with falsy coordinates reuses the stale value from the previous iteration,
and on the first iteration raises `NameError` (unbound local). -/
def ndLoop (distMiles : ℚ × ℚ → ℚ × ℚ → ℚ) (clat clon : ℚ) :
    List Place → Option ℚ → Except QueryError (List (Place × String))
  | [], _ => .ok []
  | l :: rest, last =>
    let cur := if truthy l.latitude && truthy l.longitude
      then some (distMiles (l.latitude.getD 0, l.longitude.getD 0) (clat, clon))
      else last
    match cur with
    | none => .error .nameError
    | some d =>
      (ndLoop distMiles clat clon rest (some d)).map
        fun tail => (l, format2f (pyRound2 d)) :: tail

/-- `PlaceQuerySet.near_distances(location, distance)`: runs `near`, then
maps each returned record to its exact distance recomputed with the
arguments in the order `(record, center)`, rounded to two decimals and
formatted as a string. -/
def near_distances (within : ℚ × ℚ → ℚ × ℚ → ℚ → Bool)
    (distMiles : ℚ × ℚ → ℚ × ℚ → ℚ) (store : List Place) (c : Center)
    (distance : Option ℚ) : Except QueryError (List (Place × String)) :=
  match near within store c distance with
  | .error e => .error e
  | .ok locs => ndLoop distMiles (c.latitude.getD 0) (c.longitude.getD 0) locs none

/-- `Place.distance_to(latitude, longitude)`: the library distance from
the given point to the coordinates of the record, in miles. -/
def distance_to (distMiles : ℚ × ℚ → ℚ × ℚ → ℚ) (p : Place)
    (latitude longitude : ℚ) : ℚ :=
  distMiles (latitude, longitude) (p.latitude.getD 0, p.longitude.getD 0)

/-- Result of the external geocoding service: coordinates plus locality
fields, exposed like a Place (`geoloc.location`, `geoloc.city`, ...). -/
structure GeoResult where
  latitude : Option ℚ
  longitude : Option ℚ
  city : String := " "
  state : String := " "
  zip_code : String := " "
deriving DecidableEq

/-- Errors the write path can raise: a propagated geocoder error, or the
`NameError` on `geoloc` when the backfill lines run without a geocode
call having been made. -/
inductive SaveError (ε : Type) where
  | geocodeFailed (e : ε)
  | nameError
deriving DecidableEq

/-- Space separator of `full_address`. -/
def spaceSep : String := " "

/-- Comma appended to the street address inside `full_address`. -/
def commaStr : String := ","

/-- `Place.full_address`: truthy parts joined by spaces, the street
address with a trailing comma. -/
def full_address (p : Place) : String :=
  String.intercalate spaceSep
    ((if p.address == "" then [] else [p.address ++ commaStr]) ++
     (if p.city == "" then [] else [p.city]) ++
     (if p.state == "" then [] else [p.state]) ++
     (if p.zip_code == "" then [] else [p.zip_code]))

/-- The mutation block of `Place.save` after a successful geocode call:
copy the coordinates when the geocoded pair is fully truthy, then
backfill each empty one of city, state, zip_code from the result. -/
def backfill (geoloc : GeoResult) (p : Place) : Place :=
  let p1 := if truthy geoloc.latitude && truthy geoloc.longitude
    then { p with latitude := geoloc.latitude, longitude := geoloc.longitude }
    else p
  let p2 := if p1.city == "" then { p1 with city := geoloc.city } else p1
  let p3 := if p2.state == "" then { p2 with state := geoloc.state } else p2
  if p3.zip_code == "" then { p3 with zip_code := geoloc.zip_code } else p3

/-- `Place.save`: persist unchanged when city, state and zip_code are all
empty, or all the single-space sentinel.  Otherwise, when the coordinate
pair is not fully truthy, geocode `full_address` and apply `backfill`;
when the coordinate pair is fully truthy the geocode call is skipped and
the backfill lines raise `NameError` on the unbound `geoloc` as soon as
one of city, state, zip_code is empty.  A successful result is the
record as persisted. -/
def save {ε : Type} (geocode : String → Except ε GeoResult) (p : Place) :
    Except (SaveError ε) Place :=
  if p.city == "" && p.state == "" && p.zip_code == "" then .ok p
  else if p.city == " " && p.state == " " && p.zip_code == " " then .ok p
  else if !(truthy p.latitude && truthy p.longitude) then
    match geocode (full_address p) with
    | .error e => .error (.geocodeFailed e)
    | .ok geoloc => .ok (backfill geoloc p)
  else
    if p.city == "" || p.state == "" || p.zip_code == "" then .error .nameError
    else .ok p

/-!
The great-circle distance model.  The specification treats the distance
function as an external collaborator and defines, in its glossary, the
great-circle distance as the shortest distance between two points on a
sphere approximating Earth; the library behind the source computes miles
from coordinates given in degrees, with 6371.009 km as the earth radius.
`gcMiles` is that function on exact reals: the central angle through the
spherical law of cosines, scaled by the earth radius in miles.  It is the
one intentionally non-executable definition here — it is transcendental,
and it models the external floating-point library, not code of the
repository.
-/

/-- Degrees to radians. -/
noncomputable def rad (q : ℚ) : ℝ := (q : ℝ) * Real.pi / 180

/-- Central angle between two (latitude, longitude) pairs in degrees,
through the spherical law of cosines. -/
noncomputable def gcAngle (p q : ℚ × ℚ) : ℝ :=
  Real.arccos (Real.sin (rad p.1) * Real.sin (rad q.1) +
    Real.cos (rad p.1) * Real.cos (rad q.1) * Real.cos (rad p.2 - rad q.2))

/-- Mean earth radius, 6371.009 km, in statute miles (1.609344 km each). -/
noncomputable def earthRadiusMiles : ℝ := (6371009 / 1000) / (1609344 / 1000000)

/-- Great-circle distance in statute miles. -/
noncomputable def gcMiles (p q : ℚ × ℚ) : ℝ := earthRadiusMiles * gcAngle p q

/-- The great-circle instantiation of the distance comparison passed to
`near`: the test `distance(a, b).miles <= d` of the source. -/
noncomputable def gcWithin (p q : ℚ × ℚ) (d : ℚ) : Bool :=
  @decide (gcMiles p q ≤ (d : ℝ)) (Classical.propDecidable _)

theorem gcWithin_eq_true_iff (p q : ℚ × ℚ) (d : ℚ) :
    gcWithin p q d = true ↔ gcMiles p q ≤ (d : ℝ) := by
  unfold gcWithin
  exact @decide_eq_true_iff _ (Classical.propDecidable _)

theorem gcAngle_self (p : ℚ × ℚ) : gcAngle p p = 0 := by
  unfold gcAngle
  have h : Real.sin (rad p.1) * Real.sin (rad p.1) +
      Real.cos (rad p.1) * Real.cos (rad p.1) * Real.cos (rad p.2 - rad p.2) = 1 := by
    rw [sub_self, Real.cos_zero, mul_one]
    nlinarith [Real.sin_sq_add_cos_sq (rad p.1)]
  rw [h, Real.arccos_one]

theorem gcMiles_self (p : ℚ × ℚ) : gcMiles p p = 0 := by
  rw [gcMiles, gcAngle_self, mul_zero]

/-- Symmetry of the great-circle distance. -/
theorem gcMiles_symm (p q : ℚ × ℚ) : gcMiles p q = gcMiles q p := by
  unfold gcMiles gcAngle
  rw [← Real.cos_neg (rad p.2 - rad q.2)]
  ring_nf

/-- Great-circle distance from the north pole: only the latitude of the
other point matters, and the central angle is the colatitude. -/
theorem gcMiles_pole : gcMiles (90, 10) (89, 50) = earthRadiusMiles * (Real.pi / 180) := by
  unfold gcMiles gcAngle
  have h90 : rad 90 = Real.pi / 2 := by unfold rad; push_cast; ring
  have h89 : rad 89 = 89 * Real.pi / 180 := by unfold rad; push_cast; ring
  simp only [h90, h89]
  rw [Real.sin_pi_div_two, Real.cos_pi_div_two]
  have hs : Real.sin (89 * Real.pi / 180) = Real.cos (Real.pi / 180) := by
    rw [← Real.cos_pi_div_two_sub]
    ring_nf
  have harc : Real.arccos (Real.cos (Real.pi / 180)) = Real.pi / 180 := by
    refine Real.arccos_cos (by positivity) ?_
    nlinarith [Real.pi_pos]
  rw [one_mul, zero_mul, zero_mul, add_zero, hs, harc]

/-- The pole-adjacent pair is within 70 miles: one degree of colatitude
is about 69.1 miles. -/
theorem gcMiles_pole_le : gcMiles (90, 10) (89, 50) ≤ ((70 : ℚ) : ℝ) := by
  rw [gcMiles_pole]
  unfold earthRadiusMiles
  push_cast
  nlinarith [Real.pi_lt_d2, Real.pi_pos]

/-- With a truthy center and an explicit distance, `near` returns the
double filter. -/
theorem near_ok_of_truthy (within : ℚ × ℚ → ℚ × ℚ → ℚ → Bool)
    (store : List Place) (c : Center) (d : ℚ)
    (h1 : truthy c.latitude = true) (h2 : truthy c.longitude = true) :
    near within store c (some d) =
      .ok (nearBody within store (c.latitude.getD 0) (c.longitude.getD 0) d) := by
  simp [near, h1, h2]

/-- Membership in the double filter of `near`. -/
theorem mem_nearBody_iff (within : ℚ × ℚ → ℚ × ℚ → ℚ → Bool)
    (store : List Place) (clat clon d : ℚ) (rec : Place) :
    rec ∈ nearBody within store clat clon d ↔
      rec ∈ store ∧ inBoxB clat clon d rec = true ∧
        truthy rec.latitude = true ∧ truthy rec.longitude = true ∧
        within (clat, clon) (rec.latitude.getD 0, rec.longitude.getD 0) d = true := by
  unfold nearBody
  simp only [List.mem_filter, Bool.and_eq_true]
  tauto

/-- Any record returned by `near` has truthy coordinates. -/
theorem near_ok_truthy (within : ℚ × ℚ → ℚ × ℚ → ℚ → Bool)
    (store : List Place) (c : Center) (distance : Option ℚ) (l : List Place)
    (hok : near within store c distance = .ok l) (rec : Place) (hm : rec ∈ l) :
    truthy rec.latitude = true ∧ truthy rec.longitude = true := by
  unfold near at hok
  split at hok
  · injection hok with h
    subst h
    simp at hm
  · split at hok
    · injection hok with h
      subst h
      have := (mem_nearBody_iff _ _ _ _ _ _).mp hm
      exact ⟨this.2.2.1, this.2.2.2.1⟩
    · split at hok
      · injection hok with h
        subst h
        have := (mem_nearBody_iff _ _ _ _ _ _).mp hm
        exact ⟨this.2.2.1, this.2.2.2.1⟩
      · exact absurd hok (by simp)

/-- C2 (amended): the latitude bounds of the box are conservative: a
point within `r` great-circle miles of the center is within `degLat r`
degrees of latitude of it, for physical latitudes; the longitude bounds
are not conservative in general (see the counterexample).  The latitude
margin is thin: the box uses 0.0144829... degrees per mile, the sphere
180 / (pi * earthRadiusMiles) = 0.0144789... degrees per mile. -/
theorem degLat_latitude_sound (clat clon plat plon r : ℚ)
    (hc1 : -90 ≤ clat) (hc2 : clat ≤ 90) (hp1 : -90 ≤ plat) (hp2 : plat ≤ 90)
    (h : gcMiles (clat, clon) (plat, plon) ≤ (r : ℝ)) :
    clat - degLat r ≤ plat ∧ plat ≤ clat + degLat r := by
  have hπ := Real.pi_pos
  have hR : earthRadiusMiles = 6371009000 / 1609344 := by
    unfold earthRadiusMiles; norm_num
  have hRpos : (0:ℝ) < earthRadiusMiles := by rw [hR]; norm_num
  have hθ0 : 0 ≤ gcAngle (clat, clon) (plat, plon) := Real.arccos_nonneg _
  have hr0 : (0:ℝ) ≤ (r:ℝ) := le_trans (mul_nonneg hRpos.le hθ0) h
  have hcc1 : (-90 : ℝ) ≤ (clat : ℝ) := by exact_mod_cast hc1
  have hcc2 : (clat : ℝ) ≤ 90 := by exact_mod_cast hc2
  have hpp1 : (-90 : ℝ) ≤ (plat : ℝ) := by exact_mod_cast hp1
  have hpp2 : (plat : ℝ) ≤ 90 := by exact_mod_cast hp2
  have ha1 : -(Real.pi/2) ≤ rad clat := by unfold rad; nlinarith
  have ha2 : rad clat ≤ Real.pi/2 := by unfold rad; nlinarith
  have hb1 : -(Real.pi/2) ≤ rad plat := by unfold rad; nlinarith
  have hb2 : rad plat ≤ Real.pi/2 := by unfold rad; nlinarith
  have hcos_a : 0 ≤ Real.cos (rad clat) := Real.cos_nonneg_of_mem_Icc ⟨ha1, ha2⟩
  have hcos_b : 0 ≤ Real.cos (rad plat) := Real.cos_nonneg_of_mem_Icc ⟨hb1, hb2⟩
  set S := Real.sin (rad clat) * Real.sin (rad plat) +
    Real.cos (rad clat) * Real.cos (rad plat) * Real.cos (rad clon - rad plon) with hSdef
  have hgc : earthRadiusMiles * Real.arccos S ≤ (r : ℝ) := h
  have hS_le : S ≤ Real.cos (rad clat - rad plat) := by
    rw [Real.cos_sub]
    nlinarith [Real.cos_le_one (rad clon - rad plon), mul_nonneg hcos_a hcos_b]
  have hanti : Real.arccos (Real.cos (rad clat - rad plat)) ≤ Real.arccos S := by
    rw [Real.arccos_eq_pi_div_two_sub_arcsin, Real.arccos_eq_pi_div_two_sub_arcsin]
    have := Real.monotone_arcsin hS_le
    linarith
  have habs : |rad clat - rad plat| ≤ Real.pi := by
    rw [abs_le]; constructor <;> linarith
  have hac : Real.arccos (Real.cos (rad clat - rad plat)) = |rad clat - rad plat| := by
    rw [← Real.cos_abs (rad clat - rad plat)]
    exact Real.arccos_cos (abs_nonneg _) habs
  have h1 : |rad clat - rad plat| ≤ (r:ℝ) / earthRadiusMiles := by
    rw [← hac] at *
    rw [le_div_iff₀ hRpos]
    nlinarith [hanti]
  have hab : rad clat - rad plat = ((clat : ℝ) - (plat : ℝ)) * (Real.pi / 180) := by
    unfold rad; ring
  rw [hab, abs_mul, abs_of_pos (by positivity : (0:ℝ) < Real.pi / 180)] at h1
  set A := |(clat : ℝ) - (plat : ℝ)| with hAdef
  have hA0 : 0 ≤ A := abs_nonneg _
  have hfinal : A ≤ (r : ℝ) * (1609344 / 111120000) := by
    rw [hR] at h1
    nlinarith [Real.pi_gt_d6, h1, hA0, hr0]
  have hq : |clat - plat| ≤ degLat r := by
    have hcast : ((|clat - plat| : ℚ) : ℝ) = A := by
      rw [hAdef]; push_cast; ring_nf
    have hdeg : ((degLat r : ℚ) : ℝ) = (r : ℝ) * (1609344 / 111120000) := by
      unfold degLat; push_cast; ring
    have hf := hfinal
    rw [← hcast, ← hdeg] at hf
    exact_mod_cast hf
  rw [abs_le] at hq
  constructor <;> linarith [hq.1, hq.2]

/-! Concrete fixtures used by witnesses and counterexamples. -/

/-- Distance comparison collaborator that accepts everything. -/
def alwaysWithin : ℚ × ℚ → ℚ × ℚ → ℚ → Bool := fun _ _ _ => true

/-- Constant 3.5-mile distance collaborator. -/
def constDist : ℚ × ℚ → ℚ × ℚ → ℚ := fun _ _ => (7 : ℚ) / 2

/-- A record at (45, 10). -/
def recA : Place := { name := "a", latitude := some 45, longitude := some 10 }

/-- A center at (45, 10) with no attached radius. -/
def cA : Center := { latitude := some 45, longitude := some 10 }

/-- A record one degree of latitude below the north pole, longitude 50. -/
def recPole : Place := { name := "p", latitude := some 89, longitude := some 50 }

/-- A center at the north pole, longitude 10. -/
def cPole : Center := { latitude := some 90, longitude := some 10 }

/-- A center with unset coordinates. -/
def cNone : Center := { latitude := none, longitude := none }

/-- A center with a numerically zero (falsy) latitude. -/
def cZero : Center := { latitude := some 0, longitude := some 5 }

/-- A record with a numerically zero (falsy) latitude. -/
def recZero : Place := { name := "z", latitude := some 0, longitude := some 1 }

/-- The string given by two-decimal formatting of 3.5. -/
def s350 : String := "3.50"

/-- A full geocoding result. -/
def grFull : GeoResult :=
  { latitude := some 40, longitude := some (-74),
    city := "New York", state := "NY", zip_code := "10001" }

/-- A geocoder that always resolves to `grFull`. -/
def geoRich : String → Except Unit GeoResult := fun _ => .ok grFull

/-- A geocoder that always fails. -/
def geoFail : String → Except Unit GeoResult := fun _ => .error ()

/-- A record with a street address but empty city, state and zip, and
unset coordinates. -/
def p3Main : Place :=
  { name := "x", address := "123 Main St", city := "", state := "", zip_code := "" }

/-- A record with coordinates set, empty city, and nonempty state and
zip. -/
def p4bad : Place :=
  { name := "b", address := "", city := "", state := "CA", zip_code := "10001",
    latitude := some 1, longitude := some 2 }

/-- A record with coordinates set, sentinel-blank city, and nonempty
state and zip. -/
def p4good : Place :=
  { name := "c", city := " ", state := "CA", zip_code := "10001",
    latitude := some 1, longitude := some 2 }

/-- A record with a truthy city only and unset coordinates. -/
def p6 : Place := { name := "d", address := "", city := "NYC", state := "", zip_code := "" }

/-- The message the claim about the missing-radius error expects. -/
def claimedDistanceMsg : String := "distance must be attached or passed explicitly"

/-! Claim theorems. -/

/-- C7: for every radius and every center whose coordinates are unset,
`near` returns an empty sequence rather than an error. -/
theorem near_unset_center_empty (within : ℚ × ℚ → ℚ × ℚ → ℚ → Bool)
    (store : List Place) (c : Center) (distance : Option ℚ)
    (h1 : c.latitude = none) (h2 : c.longitude = none) :
    near within store c distance = .ok [] := by
  simp [near, h1, truthy]

/-- Witness for C7 at a concrete unset center and radius. -/
theorem near_unset_center_empty_witness :
    near alwaysWithin [recA] cNone (some 5) = .ok [] :=
  near_unset_center_empty alwaysWithin [recA] cNone (some 5) rfl rfl

/-- C5 (amended): with a truthy center carrying no attached radius and no
passed distance, `near` raises ValueError with the message
`Distance must be attached or passed explicitly.` (capital D, trailing
period), the error the specification calls InvalidArgument. -/
theorem near_no_distance_raises (within : ℚ × ℚ → ℚ × ℚ → ℚ → Bool)
    (store : List Place) (c : Center)
    (h1 : truthy c.latitude = true) (h2 : truthy c.longitude = true)
    (h3 : c.nearby_distance = none) :
    near within store c none = .error (.valueError distanceErrMsg) := by
  simp [near, h1, h2, h3]

/-- Witness for C5 at a concrete center without an attached radius. -/
theorem near_no_distance_raises_witness :
    near alwaysWithin [] cA none = .error (.valueError distanceErrMsg) :=
  near_no_distance_raises alwaysWithin [] cA (by simp [cA, truthy])
    (by simp [cA, truthy]) rfl

/-- C5 is false as stated: the raised message is capitalized and ends
with a period, unlike the message the claim quotes (and a center with
falsy coordinates returns `[]` instead of raising). -/
theorem near_no_distance_message_counterexample :
    ¬ (∀ (within : ℚ × ℚ → ℚ × ℚ → ℚ → Bool) (store : List Place) (c : Center),
        c.nearby_distance = none →
        near within store c none = .error (.valueError claimedDistanceMsg)) := by
  intro hclaim
  have h := hclaim alwaysWithin [] cA rfl
  have h2 : near alwaysWithin [] cA none = .error (.valueError distanceErrMsg) := by
    simp [near, cA, truthy]
  rw [h2] at h
  simp [distanceErrMsg, claimedDistanceMsg] at h

/-- C10: zero coordinates are treated as unset: a center with a zero
coordinate makes `near` return the empty list for any radius, and a
stored record with a zero coordinate is never in the result of `near`. -/
theorem near_zero_coordinates (within : ℚ × ℚ → ℚ × ℚ → ℚ → Bool)
    (store : List Place) (c : Center) (distance : Option ℚ) :
    ((c.latitude = some 0 ∨ c.longitude = some 0) →
      near within store c distance = .ok []) ∧
    (∀ (l : List Place) (rec : Place), near within store c distance = .ok l →
      (rec.latitude = some 0 ∨ rec.longitude = some 0) → rec ∉ l) := by
  constructor
  · rintro (h | h) <;> simp [near, h, truthy]
  · intro l rec hok hz hmem
    have ht := near_ok_truthy within store c distance l hok rec hmem
    rcases hz with h | h
    · rw [h] at ht
      simp [truthy] at ht
    · rw [h] at ht
      simp [truthy] at ht

/-- Witness for C10: a zero-latitude center yields the empty list, and a
zero-latitude record is not among the results. -/
theorem near_zero_coordinates_witness :
    near alwaysWithin [recZero] cZero (some 10) = .ok [] ∧
      recZero ∉ ([] : List Place) := by
  constructor
  · exact (near_zero_coordinates alwaysWithin [recZero] cZero (some 10)).1 (Or.inl rfl)
  · exact (near_zero_coordinates alwaysWithin [recZero] cZero (some 10)).2 [] recZero
      ((near_zero_coordinates alwaysWithin [recZero] cZero (some 10)).1 (Or.inl rfl))
      (Or.inl rfl)

/-- C6: when a record needs resolution and the geocoder raises, the error
propagates from `save` and nothing is persisted. -/
theorem save_geocode_error_propagates {ε : Type} (g : String → Except ε GeoResult)
    (p : Place) (e : ε)
    (h1 : (p.city == "" && p.state == "" && p.zip_code == "") = false)
    (h2 : (p.city == " " && p.state == " " && p.zip_code == " ") = false)
    (h3 : (truthy p.latitude && truthy p.longitude) = false)
    (hg : g (full_address p) = .error e) :
    save g p = .error (.geocodeFailed e) := by
  simp [save, h1, h2, h3, hg]

/-- Witness for C6 at a concrete record needing resolution and a failing
geocoder. -/
theorem save_geocode_error_propagates_witness :
    save geoFail p6 = .error (.geocodeFailed ()) :=
  save_geocode_error_propagates geoFail p6 () (by decide) (by decide) rfl rfl

/-- C3 (amended): a record whose city, state and zip_code are all empty,
or all the single-space sentinel, is persisted unchanged with no
geocoding call, whatever its address or coordinates; in particular a
record with only a street address is never resolved. -/
theorem save_placeless_unchanged {ε : Type} (g : String → Except ε GeoResult)
    (p : Place)
    (h : (p.city = "" ∧ p.state = "" ∧ p.zip_code = "") ∨
         (p.city = " " ∧ p.state = " " ∧ p.zip_code = " ")) :
    save g p = .ok p := by
  rcases h with ⟨h1, h2, h3⟩ | ⟨h1, h2, h3⟩ <;> simp [save, h1, h2, h3]

/-- Witness for C3 at the address-only record and a geocoder that would
succeed. -/
theorem save_placeless_unchanged_witness : save geoRich p3Main = .ok p3Main :=
  save_placeless_unchanged geoRich p3Main (Or.inl ⟨rfl, rfl, rfl⟩)

/-- C3 is false as stated: the record has a street address, empty city,
state and zip, unset coordinates, and the geocoder would return full
data, yet `save` persists the record unchanged: no geocode result is
used, the coordinates stay unset. -/
theorem save_address_only_counterexample :
    p3Main.address ≠ "" ∧ p3Main.city = "" ∧ p3Main.state = "" ∧
    p3Main.zip_code = "" ∧ p3Main.latitude = none ∧ p3Main.longitude = none ∧
    geoRich (full_address p3Main) = .ok grFull ∧ grFull.latitude = some 40 ∧
    save geoRich p3Main = .ok p3Main := by
  refine ⟨by decide, rfl, rfl, rfl, rfl, rfl, rfl, rfl, ?_⟩
  simp [save, p3Main]

/-- C4 (amended): a record with truthy coordinates, city equal to the
single-space blank sentinel, and nonempty state and zip_code is persisted
unchanged by `save` with no geocoding call; the city stays the sentinel. -/
theorem save_coords_set_sentinel_skip {ε : Type} (g : String → Except ε GeoResult)
    (p : Place) (hlat : truthy p.latitude = true) (hlon : truthy p.longitude = true)
    (hcity : p.city = " ") (hstate : p.state ≠ "") (hzip : p.zip_code ≠ "") :
    save g p = .ok p := by
  have hc : (p.city == "") = false := by simp [hcity]
  have hs : (p.state == "") = false := by simp [hstate]
  have hz : (p.zip_code == "") = false := by simp [hzip]
  cases h2 : (p.city == " " && p.state == " " && p.zip_code == " ") with
  | true => simp [save, hc, h2]
  | false => simp [save, hc, h2, hlat, hlon, hs, hz]

/-- Witness for C4 at a concrete sentinel-city record with coordinates. -/
theorem save_coords_set_sentinel_skip_witness : save geoRich p4good = .ok p4good :=
  save_coords_set_sentinel_skip geoRich p4good (by simp [p4good, truthy])
    (by simp [p4good, truthy]) rfl (by decide) (by decide)

/-- C4 is false as stated: a record with coordinates set, empty-string
(unset) city and nonempty state raises NameError from `save` — the
backfill line reads the unbound `geoloc` — so the record is not
persisted. -/
theorem save_coords_set_counterexample :
    truthy p4bad.latitude = true ∧ truthy p4bad.longitude = true ∧
    p4bad.city = "" ∧ p4bad.state ≠ "" ∧
    save geoRich p4bad = .error .nameError := by
  refine ⟨by simp [p4bad, truthy], by simp [p4bad, truthy], rfl, by decide, ?_⟩
  simp [save, p4bad, truthy]

/-- Latitude of a backfilled record: copied from the geocode result
exactly when the geocoded pair is fully truthy. -/
theorem backfill_latitude (gr : GeoResult) (p : Place) :
    (backfill gr p).latitude =
      if truthy gr.latitude && truthy gr.longitude then gr.latitude
      else p.latitude := by
  simp only [backfill]
  split <;> split <;> split <;> split <;> rfl

/-- Longitude of a backfilled record: copied from the geocode result
exactly when the geocoded pair is fully truthy. -/
theorem backfill_longitude (gr : GeoResult) (p : Place) :
    (backfill gr p).longitude =
      if truthy gr.latitude && truthy gr.longitude then gr.longitude
      else p.longitude := by
  simp only [backfill]
  split <;> split <;> split <;> split <;> rfl

/-- C9: starting from a record with both coordinates unset, `save` either
leaves both unset or sets both from a geocode result that carries a fully
truthy pair — never one without the other. -/
theorem save_coordinate_pair_invariant {ε : Type} (g : String → Except ε GeoResult)
    (p q : Place) (hlat : p.latitude = none) (hlon : p.longitude = none)
    (hok : save g p = .ok q) :
    (q.latitude = none ∧ q.longitude = none) ∨
    (∃ gr : GeoResult, g (full_address p) = .ok gr ∧ truthy gr.latitude = true ∧
      truthy gr.longitude = true ∧ q.latitude = gr.latitude ∧
      q.longitude = gr.longitude) := by
  unfold save at hok
  split at hok
  · injection hok with h
    subst h
    exact Or.inl ⟨hlat, hlon⟩
  · split at hok
    · injection hok with h
      subst h
      exact Or.inl ⟨hlat, hlon⟩
    · split at hok
      · cases hg : g (full_address p) with
        | error e => rw [hg] at hok; simp at hok
        | ok gr =>
          rw [hg] at hok
          injection hok with h
          subst h
          cases hb : (truthy gr.latitude && truthy gr.longitude) with
          | true =>
            right
            refine ⟨gr, rfl, (Bool.and_eq_true _ _).mp hb |>.1,
              (Bool.and_eq_true _ _).mp hb |>.2, ?_, ?_⟩
            · rw [backfill_latitude, hb, if_pos rfl]
            · rw [backfill_longitude, hb, if_pos rfl]
          | false =>
            left
            constructor
            · rw [backfill_latitude, hb]
              simpa using hlat
            · rw [backfill_longitude, hb]
              simpa using hlon
      · rename_i hfalse
        exfalso
        apply hfalse
        rw [hlat]
        simp [truthy]

/-- Witness for C9: a record with a truthy city and unset coordinates,
resolved by a geocoder returning a full result. -/
theorem save_coordinate_pair_invariant_witness :
    (backfill grFull p6).latitude = none ∧ (backfill grFull p6).longitude = none ∨
    (∃ gr : GeoResult, geoRich (full_address p6) = .ok gr ∧
      truthy gr.latitude = true ∧ truthy gr.longitude = true ∧
      (backfill grFull p6).latitude = gr.latitude ∧
      (backfill grFull p6).longitude = gr.longitude) :=
  save_coordinate_pair_invariant geoRich p6 (backfill grFull p6) rfl rfl
    (by simp [save, p6, geoRich, truthy])

/-- Every string stored by the loop of `near_distances` is the
two-decimal formatting of the distance from the record to the center (in
that argument order), provided every record in the list has truthy
coordinates. -/
theorem ndLoop_mem (distM : ℚ × ℚ → ℚ × ℚ → ℚ) (clat clon : ℚ)
    (locs : List Place) :
    ∀ (last : Option ℚ) (res : List (Place × String)),
      (∀ p ∈ locs, truthy p.latitude = true ∧ truthy p.longitude = true) →
      ndLoop distM clat clon locs last = .ok res →
      ∀ (rec : Place) (s : String), (rec, s) ∈ res →
        s = format2f (pyRound2 (distM (rec.latitude.getD 0, rec.longitude.getD 0)
          (clat, clon))) := by
  induction locs with
  | nil =>
    intro last res _ hok rec s hmem
    simp only [ndLoop] at hok
    injection hok with h
    subst h
    simp at hmem
  | cons l rest ih =>
    intro last res htr hok rec s hmem
    have hl := htr l (by simp)
    simp only [ndLoop, hl.1, hl.2, Bool.and_self, if_true] at hok
    cases hrest : ndLoop distM clat clon rest
        (some (distM (l.latitude.getD 0, l.longitude.getD 0) (clat, clon))) with
    | error e => rw [hrest] at hok; simp [Except.map] at hok
    | ok tail =>
      rw [hrest] at hok
      simp only [Except.map, Except.ok.injEq] at hok
      subst hok
      rcases List.mem_cons.mp hmem with hh | ht
      · obtain ⟨h1, h2⟩ := Prod.mk.injEq _ _ _ _ ▸ hh
        subst h1
        subst h2
        rfl
      · exact ih (some (distM (l.latitude.getD 0, l.longitude.getD 0) (clat, clon)))
          tail (fun p hp => htr p (by simp [hp])) hrest rec s ht

/-- C8: every distance value in the mapping returned by `near_distances`
is the exact collaborator distance from the center to the record, rounded
to two decimals (and formatted with two decimals), for any symmetric
distance collaborator; `distance_to` is the distance method of the
record. -/
theorem near_distances_round_trip (within : ℚ × ℚ → ℚ × ℚ → ℚ → Bool)
    (distM : ℚ × ℚ → ℚ × ℚ → ℚ) (store : List Place) (c : Center)
    (distance : Option ℚ) (res : List (Place × String)) (rec : Place) (s : String)
    (hsym : ∀ a b, distM a b = distM b a)
    (hok : near_distances within distM store c distance = .ok res)
    (hmem : (rec, s) ∈ res) :
    s = format2f (pyRound2 (distance_to distM rec (c.latitude.getD 0)
      (c.longitude.getD 0))) := by
  unfold near_distances at hok
  cases hnear : near within store c distance with
  | error e => rw [hnear] at hok; simp at hok
  | ok locs =>
    rw [hnear] at hok
    have htr : ∀ p ∈ locs, truthy p.latitude = true ∧ truthy p.longitude = true :=
      fun p hp => near_ok_truthy within store c distance locs hnear p hp
    have hs := ndLoop_mem distM (c.latitude.getD 0) (c.longitude.getD 0) locs none
      res htr hok rec s hmem
    rw [hs, distance_to, hsym]

/-- Witness for C8 at a singleton store and the constant 3.5-mile
distance collaborator. -/
theorem near_distances_round_trip_witness :
    s350 = format2f (pyRound2 (distance_to constDist recA (cA.latitude.getD 0)
      (cA.longitude.getD 0))) :=
  near_distances_round_trip alwaysWithin constDist [recA] cA (some 60)
    [(recA, s350)] recA s350 (fun _ _ => rfl)
    (by
      have h : near alwaysWithin [recA] cA (some 60) = .ok [recA] := by
        simp [near, nearBody, inBoxB, degLat, truthy, alwaysWithin, recA, cA,
          List.filter]
        norm_num
      simp only [near_distances, h]
      have hc : cA.latitude.getD 0 = 45 := rfl
      have hc2 : cA.longitude.getD 0 = 10 := rfl
      rw [hc, hc2]
      simp only [ndLoop, recA, truthy, Except.map]
      norm_num [format2f, pyRound2, pyRoundHalfEven, constDist, s350,
        decimalDot, padZero, minusSign]
      decide)
    (by simp)

/-- C1 (amended): for a truthy center and an explicit radius, `near` with
the great-circle collaborator returns exactly the records of the store
that lie inside the bounding box, have truthy coordinates, and are within
great-circle distance `r` of the center. -/
theorem near_exact_on_box (store : List Place) (c : Center) (r : ℚ)
    (l : List Place) (rec : Place)
    (h1 : truthy c.latitude = true) (h2 : truthy c.longitude = true)
    (hok : near gcWithin store c (some r) = .ok l) :
    rec ∈ l ↔ rec ∈ store ∧
      inBoxB (c.latitude.getD 0) (c.longitude.getD 0) r rec = true ∧
      truthy rec.latitude = true ∧ truthy rec.longitude = true ∧
      gcMiles (c.latitude.getD 0, c.longitude.getD 0)
        (rec.latitude.getD 0, rec.longitude.getD 0) ≤ (r : ℝ) := by
  rw [near_ok_of_truthy _ _ _ _ h1 h2] at hok
  injection hok with h
  subst h
  rw [mem_nearBody_iff, gcWithin_eq_true_iff]

/-- Witness for C1 at a singleton store whose record coincides with the
center. -/
theorem near_exact_on_box_witness :
    recA ∈ ([recA] : List Place) ↔ recA ∈ ([recA] : List Place) ∧
      inBoxB (cA.latitude.getD 0) (cA.longitude.getD 0) 60 recA = true ∧
      truthy recA.latitude = true ∧ truthy recA.longitude = true ∧
      gcMiles (cA.latitude.getD 0, cA.longitude.getD 0)
        (recA.latitude.getD 0, recA.longitude.getD 0) ≤ ((60 : ℚ) : ℝ) :=
  near_exact_on_box [recA] cA 60 [recA] recA (by simp [cA, truthy])
    (by simp [cA, truthy])
    (by
      rw [near_ok_of_truthy _ _ _ _ (by simp [cA, truthy]) (by simp [cA, truthy])]
      have hw : gcWithin (45, 10) (45, 10) 60 = true := by
        rw [gcWithin_eq_true_iff, gcMiles_self]
        push_cast
        norm_num
      have hc : cA.latitude.getD 0 = 45 := rfl
      have hc2 : cA.longitude.getD 0 = 10 := rfl
      rw [hc, hc2]
      simp [nearBody, inBoxB, degLat, truthy, recA, List.filter, hw]
      norm_num
      exact hw)

/-- C1 is false as stated: with the center at the pole, a record one
degree of colatitude away (about 69.1 miles) and radius 70, the record
satisfies the claimed membership condition but the bounding box prunes it
away, so `near` returns the empty list. -/
theorem near_exact_set_counterexample :
    ¬ (∀ (store : List Place) (c : Center) (r : ℚ) (l : List Place) (rec : Place),
        0 ≤ r → truthy c.latitude = true → truthy c.longitude = true →
        near gcWithin store c (some r) = .ok l →
        (rec ∈ l ↔ rec ∈ store ∧ truthy rec.latitude = true ∧
          truthy rec.longitude = true ∧
          gcMiles (c.latitude.getD 0, c.longitude.getD 0)
            (rec.latitude.getD 0, rec.longitude.getD 0) ≤ (r : ℝ))) := by
  intro hclaim
  have hnear : near gcWithin [recPole] cPole (some 70) = .ok [] := by
    rw [near_ok_of_truthy _ _ _ _ (by simp [cPole, truthy]) (by simp [cPole, truthy])]
    have hc : cPole.latitude.getD 0 = 90 := rfl
    have hc2 : cPole.longitude.getD 0 = 10 := rfl
    rw [hc, hc2]
    simp [nearBody, inBoxB, degLat, recPole, List.filter]
    norm_num
  have h := hclaim [recPole] cPole 70 [] recPole (by norm_num)
    (by simp [cPole, truthy]) (by simp [cPole, truthy]) hnear
  have hdist : gcMiles (cPole.latitude.getD 0, cPole.longitude.getD 0)
      (recPole.latitude.getD 0, recPole.longitude.getD 0) ≤ ((70 : ℚ) : ℝ) :=
    gcMiles_pole_le
  have hmem := h.mpr ⟨by simp, by simp [recPole, truthy], by simp [recPole, truthy],
    hdist⟩
  simp at hmem

/-- Witness for C2 at a point coinciding with the center. -/
theorem degLat_latitude_sound_witness :
    (45 : ℚ) - degLat 60 ≤ 45 ∧ (45 : ℚ) ≤ 45 + degLat 60 :=
  degLat_latitude_sound 45 10 45 10 60 (by norm_num) (by norm_num) (by norm_num)
    (by norm_num)
    (by rw [gcMiles_self]; push_cast; norm_num)

/-- C2 is false as stated: with the center at the pole and radius 70, the
record one degree of colatitude away is within the radius but outside the
longitude bounds of the box, so the prune step drops a true positive. -/
theorem box_superset_counterexample :
    ¬ (∀ (c : Center) (r : ℚ) (p : Place),
        truthy c.latitude = true → truthy c.longitude = true →
        truthy p.latitude = true → truthy p.longitude = true →
        gcMiles (c.latitude.getD 0, c.longitude.getD 0)
          (p.latitude.getD 0, p.longitude.getD 0) ≤ (r : ℝ) →
        inBoxB (c.latitude.getD 0) (c.longitude.getD 0) r p = true) := by
  intro hclaim
  have h := hclaim cPole 70 recPole (by simp [cPole, truthy]) (by simp [cPole, truthy])
    (by simp [recPole, truthy]) (by simp [recPole, truthy]) gcMiles_pole_le
  have hc : cPole.latitude.getD 0 = 90 := rfl
  have hc2 : cPole.longitude.getD 0 = 10 := rfl
  rw [hc, hc2] at h
  simp [inBoxB, degLat, recPole] at h
  norm_num at h

end Loci
